import Mathlib

/-!
Verification of the requirements-management core of `sententia-core`:
the requirement record model (`app/schemas.py`), the in-memory store,
the create/update/delete endpoints and the versioning-on-update logic
(`app/main.py`), and the traceability export.

Machine-level details (HTTP framework, JSON encoding, CSV streaming) are
abstracted away; the data and control flow of the handlers is embedded
directly.  Time is modelled as an abstract `Nat` timestamp supplied to
`update_requirement` (the code reads `datetime.utcnow()`), and the random
identifier drawn by `create_requirement` (`uuid4()[:8]`) is modelled as a
string token supplied by the caller.
-/

set_option autoImplicit false

namespace Sententia

/-- The `RequirementLayer` enum from `app/schemas.py`. -/
inductive RequirementLayer where
  | business
  | system
  | software
  | test
deriving DecidableEq

/-- The `RequirementType` enum from `app/schemas.py`. -/
inductive RequirementType where
  | functional
  | non_functional
  | constraint
  | verification
deriving DecidableEq

/-- The `PriorityLevel` enum from `app/schemas.py`. -/
inductive PriorityLevel where
  | low
  | medium
  | high
deriving DecidableEq

/-- The `RequirementStatus` enum from `app/schemas.py`. -/
inductive RequirementStatus where
  | draft
  | approved
  | rejected
  | proposed
  | planned
deriving DecidableEq

/-- The `RequirementSource` enum from `app/schemas.py`. -/
inductive RequirementSource where
  | stakeholder
  | document
  | previous_system
  | regulation
  | support_ticket
  | product_owner
  | developer
deriving DecidableEq

/-- The `LinkType` enum from `app/schemas.py`. -/
inductive LinkType where
  | depends_on
  | satisfies
  | refines
  | conflicts_with
deriving DecidableEq

/-- The string value of each `LinkType` member (the wire value written by
the CSV export). -/
def LinkType.val : LinkType → String
  | .depends_on => "DependsOn"
  | .satisfies => "Satisfies"
  | .refines => "Refines"
  | .conflicts_with => "ConflictsWith"

/-- Parse a string into `RequirementLayer` (pydantic enum coercion). -/
def RequirementLayer.ofString : String → Option RequirementLayer
  | "Business" => some .business
  | "System" => some .system
  | "Software" => some .software
  | "Test" => some .test
  | _ => none

/-- Parse a string into `RequirementType` (pydantic enum coercion). -/
def RequirementType.ofString : String → Option RequirementType
  | "Functional" => some .functional
  | "Non-Functional" => some .non_functional
  | "Constraint" => some .constraint
  | "Verification" => some .verification
  | _ => none

/-- Parse a string into `PriorityLevel` (pydantic enum coercion). -/
def PriorityLevel.ofString : String → Option PriorityLevel
  | "Low" => some .low
  | "Medium" => some .medium
  | "High" => some .high
  | _ => none

/-- Parse a string into `RequirementStatus` (pydantic enum coercion). -/
def RequirementStatus.ofString : String → Option RequirementStatus
  | "Draft" => some .draft
  | "Approved" => some .approved
  | "Rejected" => some .rejected
  | "Proposed" => some .proposed
  | "Planned" => some .planned
  | _ => none

/-- Parse a string into `RequirementSource` (pydantic enum coercion). -/
def RequirementSource.ofString : String → Option RequirementSource
  | "Stakeholder" => some .stakeholder
  | "Document" => some .document
  | "PreviousSystem" => some .previous_system
  | "Regulation" => some .regulation
  | "SupportTicket" => some .support_ticket
  | "ProductOwner" => some .product_owner
  | "Developer" => some .developer
  | _ => none

/-- Parse a string into `LinkType` (pydantic enum coercion). -/
def LinkType.ofString : String → Option LinkType
  | "DependsOn" => some .depends_on
  | "Satisfies" => some .satisfies
  | "Refines" => some .refines
  | "ConflictsWith" => some .conflicts_with
  | _ => none

/-- The `Link` model from `app/schemas.py`: a directed typed edge to another
requirement, by display id. -/
structure Link where
  target_id : String
  type : LinkType
deriving DecidableEq

/-- The seven-field snapshot written into `RequirementVersion.data` by
`update_requirement` in `app/main.py` (the source keeps it as an open
`dict`; `update_requirement` always writes exactly these seven keys). -/
structure VersionData where
  type : RequirementType
  description : String
  rationale : Option String
  source : RequirementSource
  priority : PriorityLevel
  status : RequirementStatus
  verification : Option String
deriving DecidableEq

/-- The `RequirementVersion` model from `app/schemas.py`: a historical snapshot
plus the time it was taken (time as abstract `Nat`). -/
structure RequirementVersion where
  timestamp : Nat
  data : VersionData
deriving DecidableEq

/-- The validated `Requirement` pydantic model from `app/schemas.py`
(the request body of the create and update endpoints).  `versions` and
`links` have default `[]` when omitted from the payload. -/
structure Requirement where
  display_id : Option String
  type : RequirementType
  description : String
  source : RequirementSource
  priority : PriorityLevel
  status : RequirementStatus
  layer : Option RequirementLayer
  rationale : Option String
  verification : Option String
  versions : List RequirementVersion
  links : List Link
deriving DecidableEq

/-- A stored record: the dict produced by `req.dict()` after the handler
overwrites the `display_id` key with a definite string
(`app/main.py`, `create_requirement` / `update_requirement`). -/
structure StoredRequirement where
  display_id : String
  type : RequirementType
  description : String
  source : RequirementSource
  priority : PriorityLevel
  status : RequirementStatus
  layer : Option RequirementLayer
  rationale : Option String
  verification : Option String
  versions : List RequirementVersion
  links : List Link
deriving DecidableEq

/-- Modelled from the spec: `app/store.py` (the `requirements_store` dict)
is imported by `app/main.py` but its file is not in the sources; per the
spec it is "a mapping from `display_id` to Requirement Record, held as
process-wide mutable state", iterated "in insertion order into the
underlying map" (Python dict semantics).  We embed it as an association
list with Python-dict insert/delete/iteration behaviour. -/
abbrev Store : Type := List (String × StoredRequirement)

/-- The empty store. -/
def Store.empty : Store := []

/-- Dict lookup: `requirements_store[display_id]` / `in` test. -/
def Store.lookup : Store → String → Option StoredRequirement
  | [], _ => none
  | (k, v) :: rest, d => if k = d then some v else Store.lookup rest d

/-- Dict assignment `requirements_store[display_id] = r`: replaces in place
when the key is present (keeping its position), appends otherwise. -/
def Store.insert : Store → String → StoredRequirement → Store
  | [], d, r => [(d, r)]
  | (k, v) :: rest, d, r =>
      if k = d then (k, r) :: rest else (k, v) :: Store.insert rest d r

/-- Dict deletion `del requirements_store[display_id]`. -/
def Store.erase : Store → String → Store
  | [], _ => []
  | (k, v) :: rest, d => if k = d then rest else (k, v) :: Store.erase rest d

/-- Iteration `requirements_store.values()`, in iteration (= insertion) order. -/
def Store.values (s : Store) : List StoredRequirement :=
  s.map Prod.snd

/-- The keys of the store, in iteration order. -/
def Store.keys (s : Store) : List String :=
  s.map Prod.fst

/-- Number of entries in the store. -/
def Store.size (s : Store) : Nat :=
  s.length

/-- The error taxonomy the handlers raise: 404 on a missing `display_id`,
422 (pydantic `ValidationError`, naming the offending field) on a bad
payload. -/
inductive ApiError where
  | notFound
  | validationError (field : String)
deriving DecidableEq

/-- Endpoint `POST /requirements` (`create_requirement` in `app/main.py`), with the
drawn identifier token (`f"REQ-{str(uuid4())[:8].upper()}"`) passed in as
`display_id`.  Builds `req.dict()`, overwrites its `display_id` key, stores
it under that key and returns it. -/
def create_requirement (display_id : String) (req : Requirement) (store : Store) :
    StoredRequirement × Store :=
  let new_req : StoredRequirement :=
    { display_id := display_id
      type := req.type
      description := req.description
      source := req.source
      priority := req.priority
      status := req.status
      layer := req.layer
      rationale := req.rationale
      verification := req.verification
      versions := req.versions
      links := req.links }
  (new_req, store.insert display_id new_req)

/-- Endpoint `PUT /requirements/{display_id}` (`update_requirement` in
`app/main.py`).  404 when absent; otherwise snapshots the seven
classification fields of the old record with the current time, rebuilds the
record from the payload, overwrites its `display_id` and `versions` keys
(versions := old versions + [snapshot]) and stores it.  On error the store
is returned unchanged (the handler raises before mutating). -/
def update_requirement (now : Nat) (display_id : String) (req : Requirement)
    (store : Store) : Except ApiError StoredRequirement × Store :=
  match store.lookup display_id with
  | none => (.error .notFound, store)
  | some old_req =>
      let version : RequirementVersion :=
        { timestamp := now
          data :=
            { type := old_req.type
              description := old_req.description
              rationale := old_req.rationale
              source := old_req.source
              priority := old_req.priority
              status := old_req.status
              verification := old_req.verification } }
      let updated_req : StoredRequirement :=
        { display_id := display_id
          type := req.type
          description := req.description
          source := req.source
          priority := req.priority
          status := req.status
          layer := req.layer
          rationale := req.rationale
          verification := req.verification
          versions := old_req.versions ++ [version]
          links := req.links }
      (.ok updated_req, store.insert display_id updated_req)

/-- Endpoint `DELETE /requirements/{display_id}` (`delete_requirement` in
`app/main.py`).  404 when absent, otherwise removes the entry and returns
the success message. -/
def delete_requirement (display_id : String) (store : Store) :
    Except ApiError String × Store :=
  match store.lookup display_id with
  | none => (.error .notFound, store)
  | some _ => (.ok "Requirement deleted successfully", store.erase display_id)

/-- Endpoint `GET /export/traceability` (`export_traceability` in `app/main.py`):
the CSV rows, header first, then one row per link of each stored record, in
store iteration order then per-record link order. -/
def export_traceability (store : Store) : List (List String) :=
  ["Source Requirement", "Link Type", "Target Requirement"] ::
    (store.values.flatMap fun req =>
      req.links.map fun link => [req.display_id, link.type.val, link.target_id])

/-- A raw link object as found in the JSON payload, before validation. -/
structure RawLink where
  target_id : Option String
  type : Option String
deriving DecidableEq

/-- A raw request body before pydantic validation: every field either
absent (`none`) or present with a raw value.  Enum-valued fields carry the
raw string to be checked against the closed set. -/
structure RawPayload where
  display_id : Option String
  type : Option String
  description : Option String
  source : Option String
  priority : Option String
  status : Option String
  layer : Option String
  rationale : Option String
  verification : Option String
  versions : Option (List RequirementVersion)
  links : Option (List RawLink)
deriving DecidableEq

/-- pydantic check for a required field: absent or unparseable values are
rejected, naming the offending field. -/
def requireField {α : Type} (name : String) (v : Option String)
    (parse : String → Option α) : Except ApiError α :=
  match v with
  | none => .error (.validationError name)
  | some s =>
      match parse s with
      | none => .error (.validationError name)
      | some a => .ok a

/-- pydantic check for `description`: required, `min_length=1`. -/
def validateDescription (v : Option String) : Except ApiError String :=
  match v with
  | none => .error (.validationError "description")
  | some s => if 1 ≤ s.length then .ok s else .error (.validationError "description")

/-- pydantic check for an optional enum field: absent is fine, a present
value must lie in the closed set. -/
def validateOptEnum {α : Type} (name : String) (v : Option String)
    (parse : String → Option α) : Except ApiError (Option α) :=
  match v with
  | none => .ok none
  | some s =>
      match parse s with
      | none => .error (.validationError name)
      | some a => .ok (some a)

/-- pydantic validation of one `Link` object. -/
def validateLink (raw : RawLink) : Except ApiError Link :=
  match raw.target_id with
  | none => .error (.validationError "target_id")
  | some t =>
      match requireField "type" raw.type LinkType.ofString with
      | .error e => .error e
      | .ok ty => .ok { target_id := t, type := ty }

/-- pydantic validation of a list of raw link objects, first error wins. -/
def validateLinkList : List RawLink → Except ApiError (List Link)
  | [] => .ok []
  | r :: rest =>
      match validateLink r with
      | .error e => .error e
      | .ok l =>
          match validateLinkList rest with
          | .error e => .error e
          | .ok ls => .ok (l :: ls)

/-- pydantic validation of the `links` field (default `[]` when omitted). -/
def validateLinks : Option (List RawLink) → Except ApiError (List Link)
  | none => .ok []
  | some l => validateLinkList l

/-- pydantic validation of the request body against the `Requirement` model
of `app/schemas.py`: required fields present, enum fields in their closed
sets, `description` non-empty; `versions` and `links` default to `[]`.
Performed by FastAPI before the handler body runs. -/
def validate_requirement (raw : RawPayload) : Except ApiError Requirement :=
  match requireField "type" raw.type RequirementType.ofString with
  | .error e => .error e
  | .ok t =>
  match validateDescription raw.description with
  | .error e => .error e
  | .ok desc =>
  match requireField "source" raw.source RequirementSource.ofString with
  | .error e => .error e
  | .ok src =>
  match requireField "priority" raw.priority PriorityLevel.ofString with
  | .error e => .error e
  | .ok pri =>
  match requireField "status" raw.status RequirementStatus.ofString with
  | .error e => .error e
  | .ok st =>
  match validateOptEnum "layer" raw.layer RequirementLayer.ofString with
  | .error e => .error e
  | .ok lay =>
  match validateLinks raw.links with
  | .error e => .error e
  | .ok lks =>
      .ok { display_id := raw.display_id
            type := t
            description := desc
            source := src
            priority := pri
            status := st
            layer := lay
            rationale := raw.rationale
            verification := raw.verification
            versions := raw.versions.getD []
            links := lks }

/-- The full create pipeline: framework validation, then the handler.  On a
validation failure the handler never runs and the store is untouched. -/
def create_endpoint (display_id : String) (raw : RawPayload) (store : Store) :
    Except ApiError StoredRequirement × Store :=
  match validate_requirement raw with
  | .error e => (.error e, store)
  | .ok req =>
      let p := create_requirement display_id req store
      (.ok p.1, p.2)

/-- The full update pipeline: framework validation, then the handler. -/
def update_endpoint (now : Nat) (display_id : String) (raw : RawPayload)
    (store : Store) : Except ApiError StoredRequirement × Store :=
  match validate_requirement raw with
  | .error e => (.error e, store)
  | .ok req => update_requirement now display_id req store

/-- A sequence of update calls against one `display_id`, each with its own
timestamp and payload; stops at the first error. -/
def applyUpdates (display_id : String) :
    List (Nat × Requirement) → Store → Except ApiError Store
  | [], store => .ok store
  | (now, req) :: rest, store =>
      match update_requirement now display_id req store with
      | (.error e, _) => .error e
      | (.ok _, s') => applyUpdates display_id rest s'

/-- A sequence of create calls, each with its own drawn identifier token
and payload (creation never fails once validation has passed). -/
def applyCreates : List (String × Requirement) → Store → Store
  | [], store => store
  | (tok, req) :: rest, store => applyCreates rest (create_requirement tok req store).2

/-! Store lemmas: Python dict behaviour. -/

theorem Store.lookup_insert_self (s : Store) (d : String) (r : StoredRequirement) :
    (s.insert d r).lookup d = some r := by
  induction s with
  | nil => simp [Store.insert, Store.lookup]
  | cons p rest ih =>
      obtain ⟨k, v⟩ := p
      by_cases h : k = d
      · simp [Store.insert, Store.lookup, h]
      · simp [Store.insert, Store.lookup, h, ih]

theorem Store.lookup_insert_ne (s : Store) (d k : String) (r : StoredRequirement)
    (h : k ≠ d) : (s.insert d r).lookup k = s.lookup k := by
  induction s with
  | nil =>
      have hk : d ≠ k := fun hh => h hh.symm
      simp [Store.insert, Store.lookup, hk]
  | cons p rest ih =>
      obtain ⟨k', v⟩ := p
      by_cases h1 : k' = d
      · subst h1
        have hk : k' ≠ k := fun hh => h hh.symm
        simp [Store.insert, Store.lookup, hk]
      · by_cases h2 : k' = k
        · subst h2
          simp [Store.insert, Store.lookup, h1]
        · simp [Store.insert, Store.lookup, h1, h2, ih]

theorem Store.length_insert_fresh (s : Store) (d : String) (r : StoredRequirement)
    (h : s.lookup d = none) : (s.insert d r).length = s.length + 1 := by
  induction s with
  | nil => simp [Store.insert]
  | cons p rest ih =>
      obtain ⟨k, v⟩ := p
      by_cases h1 : k = d
      · simp [Store.lookup, h1] at h
      · simp [Store.lookup, h1] at h
        simp [Store.insert, h1, ih h]

theorem Store.lookup_erase_self (s : Store) (d : String)
    (hnodup : s.keys.Nodup) : (s.erase d).lookup d = none := by
  induction s with
  | nil => simp [Store.erase, Store.lookup]
  | cons p rest ih =>
      obtain ⟨k, v⟩ := p
      simp only [Store.keys, List.map_cons, List.nodup_cons] at hnodup
      by_cases h1 : k = d
      · subst h1
        cases hrest : Store.lookup rest k with
        | none => simp [Store.erase, hrest]
        | some w =>
            exfalso
            apply hnodup.1
            clear ih hnodup
            induction rest with
            | nil => simp [Store.lookup] at hrest
            | cons q tail ih2 =>
                obtain ⟨k2, v2⟩ := q
                by_cases h2 : k2 = k
                · simp [h2]
                · simp [Store.lookup, h2] at hrest
                  simp [ih2 hrest]
      · simp [Store.erase, Store.lookup, h1, ih hnodup.2]

theorem Store.lookup_erase_ne (s : Store) (d k : String) (h : k ≠ d) :
    (s.erase d).lookup k = s.lookup k := by
  induction s with
  | nil => simp [Store.erase]
  | cons p rest ih =>
      obtain ⟨k', v⟩ := p
      by_cases h1 : k' = d
      · subst h1
        have hk : k' ≠ k := fun hh => h hh.symm
        simp [Store.erase, Store.lookup, hk]
      · by_cases h2 : k' = k
        · subst h2
          simp [Store.erase, Store.lookup, h1]
        · simp [Store.erase, Store.lookup, h1, h2, ih]

/-! Derived forms of the handlers. -/

/-- The seven pre-update field values captured into `version.data` by
`update_requirement`. -/
def snapshotOf (old : StoredRequirement) : VersionData :=
  { type := old.type
    description := old.description
    rationale := old.rationale
    source := old.source
    priority := old.priority
    status := old.status
    verification := old.verification }

/-- The replacement record built by `update_requirement` out of payload
`req`, stored record `old`, path parameter `d` and time `now`. -/
def replacementOf (now : Nat) (d : String) (req : Requirement)
    (old : StoredRequirement) : StoredRequirement :=
  { display_id := d
    type := req.type
    description := req.description
    source := req.source
    priority := req.priority
    status := req.status
    layer := req.layer
    rationale := req.rationale
    verification := req.verification
    versions := old.versions ++ [⟨now, snapshotOf old⟩]
    links := req.links }

theorem update_requirement_found (now : Nat) (d : String) (req : Requirement)
    (store : Store) (old : StoredRequirement) (hold : store.lookup d = some old) :
    update_requirement now d req store =
      (.ok (replacementOf now d req old),
        store.insert d (replacementOf now d req old)) := by
  simp [update_requirement, hold, replacementOf, snapshotOf]

/-- The error carried by a failing result, if any. -/
def errorOf {β : Type} : Except ApiError β → Option ApiError
  | .error e => some e
  | .ok _ => none

/-- Whether an error is a `ValidationError` (as opposed to `NotFound`). -/
def ApiError.isValidation : ApiError → Bool
  | .validationError _ => true
  | .notFound => false

/-! Concrete fixtures used in witnesses and counterexamples. -/

/-- A validated payload with description "A" and no links or history. -/
def reqA : Requirement :=
  { display_id := none
    type := .functional
    description := "A"
    source := .stakeholder
    priority := .high
    status := .draft
    layer := none
    rationale := none
    verification := none
    versions := []
    links := [] }

/-- A validated payload identical to `reqA` except for description "B". -/
def reqB : Requirement :=
  { reqA with description := "B" }

/-- The seven-field snapshot of a record holding `reqA`'s field values. -/
def snapA : VersionData :=
  { type := .functional
    description := "A"
    rationale := none
    source := .stakeholder
    priority := .high
    status := .draft
    verification := none }

/-- A stored record with description "A" under display id REQ-1. -/
def storedOldA : StoredRequirement :=
  { display_id := "REQ-1"
    type := .functional
    description := "A"
    source := .stakeholder
    priority := .high
    status := .draft
    layer := none
    rationale := none
    verification := none
    versions := []
    links := [] }

/-- A one-record store holding `storedOldA`. -/
def storeA : Store := [("REQ-1", storedOldA)]

/-- Record R1 of the export example: one DependsOn link to R2. -/
def storedR1 : StoredRequirement :=
  { display_id := "R1"
    type := .functional
    description := "first"
    source := .stakeholder
    priority := .high
    status := .draft
    layer := none
    rationale := none
    verification := none
    versions := []
    links := [{ target_id := "R2", type := .depends_on }] }

/-- Record R2 of the export example: no links. -/
def storedR2 : StoredRequirement :=
  { storedR1 with display_id := "R2", description := "second", links := [] }

/-- The two-record store of the export example. -/
def exportExampleStore : Store := [("R1", storedR1), ("R2", storedR2)]

/-- Record R3 with a link to a display id absent from every store. -/
def storedR3 : StoredRequirement :=
  { storedR1 with
      display_id := "R3"
      description := "third"
      links := [{ target_id := "REQ-MISSING", type := .satisfies }] }

/-- A one-record store whose only link dangles. -/
def dangleExampleStore : Store := [("R3", storedR3)]

/-- A well-formed raw request body (no `versions`, no `links`). -/
def rawLogin : RawPayload :=
  { display_id := none
    type := some "Functional"
    description := some "The system shall allow users to log in."
    source := some "Stakeholder"
    priority := some "High"
    status := some "Draft"
    layer := some "System"
    rationale := none
    verification := none
    versions := none
    links := none }

/-- Payload `rawLogin` with an out-of-vocabulary priority value. -/
def rawCritical : RawPayload :=
  { rawLogin with priority := some "Critical" }

/-- Payload `rawLogin` with a client-supplied non-empty version history. -/
def rawWithHistory : RawPayload :=
  { rawLogin with versions := some [⟨3, snapA⟩] }

/-- Payload `rawLogin` with an out-of-vocabulary source value. -/
def rawBogusSource : RawPayload :=
  { rawLogin with source := some "Telepathy" }

/-! Validation lemmas. -/

theorem requireField_ok {α : Type} (name : String) (v : Option String)
    (parse : String → Option α) (a : α)
    (h : requireField name v parse = .ok a) :
    ∃ s, v = some s ∧ parse s = some a := by
  cases v with
  | none => simp [requireField] at h
  | some s =>
      cases hp : parse s with
      | none => simp [requireField, hp] at h
      | some b =>
          simp [requireField, hp] at h
          exact ⟨s, rfl, by rw [hp, h]⟩

theorem requireField_error {α : Type} (name : String) (v : Option String)
    (parse : String → Option α) (e : ApiError)
    (h : requireField name v parse = .error e) : e = .validationError name := by
  cases v with
  | none =>
      simp [requireField] at h
      exact h.symm
  | some s =>
      cases hp : parse s with
      | none =>
          simp [requireField, hp] at h
          exact h.symm
      | some b => simp [requireField, hp] at h

theorem validateDescription_ok (v : Option String) (s : String)
    (h : validateDescription v = .ok s) : v = some s ∧ 1 ≤ s.length := by
  cases v with
  | none => simp [validateDescription] at h
  | some t =>
      by_cases hl : 1 ≤ t.length
      · simp [validateDescription, hl] at h
        exact ⟨by rw [h], h ▸ hl⟩
      · simp [validateDescription, hl] at h

theorem validateDescription_error (v : Option String) (e : ApiError)
    (h : validateDescription v = .error e) : e = .validationError "description" := by
  cases v with
  | none =>
      simp [validateDescription] at h
      exact h.symm
  | some t =>
      by_cases hl : 1 ≤ t.length
      · simp [validateDescription, hl] at h
      · simp [validateDescription, hl] at h
        exact h.symm

theorem validateOptEnum_error {α : Type} (name : String) (v : Option String)
    (parse : String → Option α) (e : ApiError)
    (h : validateOptEnum name v parse = .error e) : e = .validationError name := by
  cases v with
  | none => simp [validateOptEnum] at h
  | some s =>
      cases hp : parse s with
      | none =>
          simp [validateOptEnum, hp] at h
          exact h.symm
      | some b => simp [validateOptEnum, hp] at h

theorem validateLink_error (r : RawLink) (e : ApiError)
    (h : validateLink r = .error e) : e.isValidation = true := by
  obtain ⟨tid, ty⟩ := r
  cases tid with
  | none =>
      simp [validateLink] at h
      rw [← h]
      rfl
  | some t =>
      cases hq : requireField "type" ty LinkType.ofString with
      | error e' =>
          simp [validateLink, hq] at h
          rw [← h, requireField_error "type" ty LinkType.ofString e' hq]
          rfl
      | ok lt => simp [validateLink, hq] at h

theorem validateLinkList_error (l : List RawLink) (e : ApiError)
    (h : validateLinkList l = .error e) : e.isValidation = true := by
  induction l generalizing e with
  | nil => simp [validateLinkList] at h
  | cons r rest ih =>
      cases h1 : validateLink r with
      | error e' =>
          simp [validateLinkList, h1] at h
          rw [← h]
          exact validateLink_error r e' h1
      | ok lk =>
          cases h2 : validateLinkList rest with
          | error e' =>
              simp [validateLinkList, h1, h2] at h
              rw [← h]
              exact ih e' h2
          | ok ls => simp [validateLinkList, h1, h2] at h

theorem validateLinks_error (o : Option (List RawLink)) (e : ApiError)
    (h : validateLinks o = .error e) : e.isValidation = true := by
  cases o with
  | none => simp [validateLinks] at h
  | some l => exact validateLinkList_error l e h

/-- A failing pydantic validation always reports a `ValidationError`, never
`NotFound`. -/
theorem validate_requirement_error (raw : RawPayload) (e : ApiError)
    (h : validate_requirement raw = .error e) : e.isValidation = true := by
  unfold validate_requirement at h
  cases h1 : requireField "type" raw.type RequirementType.ofString with
  | error e' =>
      rw [h1] at h
      simp at h
      rw [← h, requireField_error _ _ _ _ h1]
      rfl
  | ok t =>
  rw [h1] at h
  cases h2 : validateDescription raw.description with
  | error e' =>
      rw [h2] at h
      simp at h
      rw [← h, validateDescription_error _ _ h2]
      rfl
  | ok desc =>
  rw [h2] at h
  cases h3 : requireField "source" raw.source RequirementSource.ofString with
  | error e' =>
      rw [h3] at h
      simp at h
      rw [← h, requireField_error _ _ _ _ h3]
      rfl
  | ok src =>
  rw [h3] at h
  cases h4 : requireField "priority" raw.priority PriorityLevel.ofString with
  | error e' =>
      rw [h4] at h
      simp at h
      rw [← h, requireField_error _ _ _ _ h4]
      rfl
  | ok pri =>
  rw [h4] at h
  cases h5 : requireField "status" raw.status RequirementStatus.ofString with
  | error e' =>
      rw [h5] at h
      simp at h
      rw [← h, requireField_error _ _ _ _ h5]
      rfl
  | ok st =>
  rw [h5] at h
  cases h6 : validateOptEnum "layer" raw.layer RequirementLayer.ofString with
  | error e' =>
      rw [h6] at h
      simp at h
      rw [← h, validateOptEnum_error _ _ _ _ h6]
      rfl
  | ok lay =>
  rw [h6] at h
  cases h7 : validateLinks raw.links with
  | error e' =>
      rw [h7] at h
      simp at h
      rw [← h]
      exact validateLinks_error _ _ h7
  | ok lks =>
      rw [h7] at h
      simp at h

/-- Everything implied by a successful pydantic validation: each required
field was present with an in-vocabulary value, the description is
non-empty, and `versions` and `links` come from the payload with default
`[]`. -/
theorem validate_requirement_ok_facts (raw : RawPayload) (req : Requirement)
    (h : validate_requirement raw = .ok req) :
    raw.type ≠ none ∧ raw.description ≠ none ∧ raw.source ≠ none ∧
    raw.priority ≠ none ∧ raw.status ≠ none ∧ raw.description ≠ some "" ∧
    (∀ s, raw.priority = some s → PriorityLevel.ofString s ≠ none) ∧
    1 ≤ req.description.length ∧
    req.versions = raw.versions.getD [] ∧
    (raw.links = none → req.links = []) ∧
    req.display_id = raw.display_id := by
  unfold validate_requirement at h
  cases h1 : requireField "type" raw.type RequirementType.ofString with
  | error e' => rw [h1] at h; simp at h
  | ok t =>
  rw [h1] at h
  cases h2 : validateDescription raw.description with
  | error e' => rw [h2] at h; simp at h
  | ok desc =>
  rw [h2] at h
  cases h3 : requireField "source" raw.source RequirementSource.ofString with
  | error e' => rw [h3] at h; simp at h
  | ok src =>
  rw [h3] at h
  cases h4 : requireField "priority" raw.priority PriorityLevel.ofString with
  | error e' => rw [h4] at h; simp at h
  | ok pri =>
  rw [h4] at h
  cases h5 : requireField "status" raw.status RequirementStatus.ofString with
  | error e' => rw [h5] at h; simp at h
  | ok st =>
  rw [h5] at h
  cases h6 : validateOptEnum "layer" raw.layer RequirementLayer.ofString with
  | error e' => rw [h6] at h; simp at h
  | ok lay =>
  rw [h6] at h
  cases h7 : validateLinks raw.links with
  | error e' => rw [h7] at h; simp at h
  | ok lks =>
  rw [h7] at h
  simp only [Except.ok.injEq] at h
  obtain ⟨sT, hsT, -⟩ := requireField_ok _ _ _ _ h1
  obtain ⟨hsD, hlD⟩ := validateDescription_ok _ _ h2
  obtain ⟨sS, hsS, -⟩ := requireField_ok _ _ _ _ h3
  obtain ⟨sP, hsP, hpP⟩ := requireField_ok _ _ _ _ h4
  obtain ⟨sQ, hsQ, -⟩ := requireField_ok _ _ _ _ h5
  refine ⟨by simp [hsT], by simp [hsD], by simp [hsS], by simp [hsP],
    by simp [hsQ], ?_, ?_, ?_, ?_, ?_, ?_⟩
  · intro hcontra
    rw [hcontra] at hsD
    simp at hsD
    rw [← hsD] at hlD
    simp at hlD
  · intro s hs
    rw [hs] at hsP
    simp at hsP
    rw [hsP, hpP]
    simp
  · rw [← h]
    exact hlD
  · rw [← h]
  · intro hnone
    rw [← h]
    simp only
    rw [hnone] at h7
    simp [validateLinks] at h7
    exact h7
  · rw [← h]

theorem validateOptEnum_ok {α : Type} (name : String) (v : Option String)
    (parse : String → Option α) (a : Option α)
    (h : validateOptEnum name v parse = .ok a) :
    ∀ s, v = some s → parse s ≠ none := by
  intro s hs
  rw [hs] at h
  cases hp : parse s with
  | none => simp [validateOptEnum, hp] at h
  | some b => simp [hp]

theorem validateLink_ok (r : RawLink) (lk : Link)
    (h : validateLink r = .ok lk) :
    r.target_id ≠ none ∧ ∀ s, r.type = some s → LinkType.ofString s ≠ none := by
  obtain ⟨tid, ty⟩ := r
  cases tid with
  | none => simp [validateLink] at h
  | some t =>
      refine ⟨by simp, ?_⟩
      intro s hs
      simp only at hs
      subst hs
      cases hq : requireField "type" (some s) LinkType.ofString with
      | error e => simp [validateLink, hq] at h
      | ok lt =>
          obtain ⟨s2, hs2, hp2⟩ := requireField_ok _ _ _ _ hq
          simp only [Option.some.injEq] at hs2
          rw [hs2, hp2]
          simp

theorem validateLinkList_ok_mem (l : List RawLink) (ls : List Link)
    (h : validateLinkList l = .ok ls) :
    ∀ r ∈ l, ∃ lk, validateLink r = .ok lk := by
  induction l generalizing ls with
  | nil => simp
  | cons r0 rest ih =>
      cases h1 : validateLink r0 with
      | error e => simp [validateLinkList, h1] at h
      | ok lk =>
          cases h2 : validateLinkList rest with
          | error e => simp [validateLinkList, h1, h2] at h
          | ok ls2 =>
              intro r hr
              rcases List.mem_cons.mp hr with h3 | h3
              · exact ⟨lk, h3 ▸ h1⟩
              · exact ih ls2 h2 r h3

/-- A successful validation also certifies every enum-valued field: any
string the payload supplied for type, source, status, layer or a link's
type lies inside the corresponding closed vocabulary. -/
theorem validate_requirement_ok_enum_facts (raw : RawPayload) (req : Requirement)
    (h : validate_requirement raw = .ok req) :
    (∀ s, raw.type = some s → RequirementType.ofString s ≠ none) ∧
    (∀ s, raw.source = some s → RequirementSource.ofString s ≠ none) ∧
    (∀ s, raw.status = some s → RequirementStatus.ofString s ≠ none) ∧
    (∀ s, raw.layer = some s → RequirementLayer.ofString s ≠ none) ∧
    (∀ l, raw.links = some l → ∀ r ∈ l, r.target_id ≠ none ∧
      ∀ s, r.type = some s → LinkType.ofString s ≠ none) := by
  unfold validate_requirement at h
  cases h1 : requireField "type" raw.type RequirementType.ofString with
  | error e' => rw [h1] at h; simp at h
  | ok t =>
  rw [h1] at h
  cases h2 : validateDescription raw.description with
  | error e' => rw [h2] at h; simp at h
  | ok desc =>
  rw [h2] at h
  cases h3 : requireField "source" raw.source RequirementSource.ofString with
  | error e' => rw [h3] at h; simp at h
  | ok src =>
  rw [h3] at h
  cases h4 : requireField "priority" raw.priority PriorityLevel.ofString with
  | error e' => rw [h4] at h; simp at h
  | ok pri =>
  rw [h4] at h
  cases h5 : requireField "status" raw.status RequirementStatus.ofString with
  | error e' => rw [h5] at h; simp at h
  | ok st =>
  rw [h5] at h
  cases h6 : validateOptEnum "layer" raw.layer RequirementLayer.ofString with
  | error e' => rw [h6] at h; simp at h
  | ok lay =>
  rw [h6] at h
  cases h7 : validateLinks raw.links with
  | error e' => rw [h7] at h; simp at h
  | ok lks =>
  obtain ⟨sT, hsT, hpT⟩ := requireField_ok _ _ _ _ h1
  obtain ⟨sS, hsS, hpS⟩ := requireField_ok _ _ _ _ h3
  obtain ⟨sQ, hsQ, hpQ⟩ := requireField_ok _ _ _ _ h5
  refine ⟨?_, ?_, ?_, validateOptEnum_ok _ _ _ _ h6, ?_⟩
  · intro s hs
    rw [hs] at hsT
    simp only [Option.some.injEq] at hsT
    rw [hsT, hpT]
    simp
  · intro s hs
    rw [hs] at hsS
    simp only [Option.some.injEq] at hsS
    rw [hsS, hpS]
    simp
  · intro s hs
    rw [hs] at hsQ
    simp only [Option.some.injEq] at hsQ
    rw [hsQ, hpQ]
    simp
  · intro l hl r hr
    rw [hl] at h7
    simp only [validateLinks] at h7
    obtain ⟨lk, hlk⟩ := validateLinkList_ok_mem l lks h7 r hr
    exact validateLink_ok r lk hlk

end Sententia

namespace Sententia

/-! Claims. -/

/-- Claim C1: for every record present in the store, a successful update
appends a single version snapshot holding the record's pre-update values of
the seven fields {type, description, rationale, source, priority, status,
verification}, never the newly supplied values. -/
theorem update_snapshot_holds_preupdate_fields
    (now : Nat) (d : String) (req : Requirement) (store : Store)
    (old : StoredRequirement) (hold : store.lookup d = some old) :
    ((update_requirement now d req store).1.map fun u => u.versions.getLast?) =
      .ok (some ⟨now, snapshotOf old⟩) := by
  rw [update_requirement_found now d req store old hold]
  simp [Except.map, replacementOf]

/-- Witness for C1 at a concrete input: the prior description was "A", the
update sets it to "B", and the appended snapshot still holds "A". -/
theorem update_snapshot_holds_preupdate_fields_witness :
    storedOldA.description = "A" ∧ reqB.description = "B" ∧
    ((update_requirement 5 "REQ-1" reqB storeA).1.map fun u => u.versions.getLast?) =
      .ok (some ⟨5, snapA⟩) ∧ snapA.description = "A" := by
  refine ⟨rfl, rfl, ?_, rfl⟩
  have h := update_snapshot_holds_preupdate_fields 5 "REQ-1" reqB storeA storedOldA
    (by decide)
  have hs : snapshotOf storedOldA = snapA := by decide
  rw [h, hs]

/-- Claim C2: version history is append-only.  Starting from any stored
record, a whole sequence of updates succeeds, the record stays present, and
its final history is the initial history with exactly one snapshot appended
per update (so a record created with empty history has `k` snapshots after
`k` updates). -/
theorem versions_append_only
    (d : String) (l : List (Nat × Requirement)) (store : Store)
    (r0 : StoredRequirement) (hold : store.lookup d = some r0) :
    ∃ s' r', applyUpdates d l store = .ok s' ∧ s'.lookup d = some r' ∧
      ∃ snaps, r'.versions = r0.versions ++ snaps ∧ snaps.length = l.length := by
  induction l generalizing store r0 with
  | nil => exact ⟨store, r0, rfl, hold, [], by simp, rfl⟩
  | cons p rest ih =>
      obtain ⟨now, req⟩ := p
      obtain ⟨s', r', h1, h2, snaps, hv, hlen⟩ :=
        ih (store.insert d (replacementOf now d req r0)) (replacementOf now d req r0)
          (Store.lookup_insert_self store d _)
      refine ⟨s', r', ?_, h2, ⟨now, snapshotOf r0⟩ :: snaps, ?_, ?_⟩
      · simp only [applyUpdates, update_requirement_found now d req store r0 hold]
        exact h1
      · simp [hv, replacementOf]
      · simp [hlen]

/-- Witness for C2 at a concrete input: two consecutive updates of a record
created with empty history leave exactly two snapshots. -/
theorem versions_append_only_witness :
    ((applyUpdates "REQ-1" [(5, reqB), (6, reqA)] storeA).toOption.bind
      fun s' => (s'.lookup "REQ-1").map fun r' => r'.versions.length) = some 2 := by
  obtain ⟨s', r', h1, h2, snaps, hv, hlen⟩ :=
    versions_append_only "REQ-1" [(5, reqB), (6, reqA)] storeA storedOldA (by decide)
  rw [h1]
  simp [Except.toOption, h2, hv, hlen, storedOldA]

/-- The `Requirement` that pydantic validation yields for `rawLogin`. -/
def reqLogin : Requirement :=
  { display_id := none
    type := .functional
    description := "The system shall allow users to log in."
    source := .stakeholder
    priority := .high
    status := .draft
    layer := some .system
    rationale := none
    verification := none
    versions := []
    links := [] }

/-- Claim C3: updates are full replacements built from the client-supplied
field values.  A payload that omits `links` validates to `links = []`, and
the stored and returned replacement record has `links = []` (no merge with
the old record). -/
theorem update_full_replace_links_empty
    (now : Nat) (d : String) (raw : RawPayload) (req : Requirement)
    (store : Store) (old : StoredRequirement)
    (hlinks : raw.links = none)
    (hval : validate_requirement raw = .ok req)
    (hold : store.lookup d = some old) :
    update_endpoint now d raw store =
      (.ok (replacementOf now d req old),
        store.insert d (replacementOf now d req old)) ∧
    (replacementOf now d req old).links = [] ∧
    (store.insert d (replacementOf now d req old)).lookup d =
      some (replacementOf now d req old) := by
  have hfacts := validate_requirement_ok_facts raw req hval
  have hempty : req.links = [] := hfacts.2.2.2.2.2.2.2.2.2.1 hlinks
  refine ⟨?_, ?_, Store.lookup_insert_self store d _⟩
  · simp [update_endpoint, hval, update_requirement_found now d req store old hold]
  · simp [replacementOf, hempty]

/-- Witness for C3 at a concrete input: updating the one-record store with
a payload that omits `links` stores a record with empty links. -/
theorem update_full_replace_links_empty_witness :
    rawLogin.links = none ∧
    update_endpoint 7 "REQ-1" rawLogin storeA =
      (.ok (replacementOf 7 "REQ-1" reqLogin storedOldA),
        storeA.insert "REQ-1" (replacementOf 7 "REQ-1" reqLogin storedOldA)) ∧
    (replacementOf 7 "REQ-1" reqLogin storedOldA).links = [] := by
  have h := update_full_replace_links_empty 7 "REQ-1" rawLogin reqLogin storeA
    storedOldA rfl (by rfl) (by decide)
  exact ⟨rfl, h.1, h.2.1⟩

/-- Counterexample to C5 as stated: a payload carrying a non-empty
`versions` list is accepted by the `Requirement` model, and create stores
that history verbatim, so the created record's history is not empty. -/
theorem create_keeps_payload_versions_counterexample :
    ((create_endpoint "REQ-00000001" rawWithHistory Store.empty).2.lookup
        "REQ-00000001").map (fun r => r.versions.length) = some 1 ∧
    (1 : Nat) ≠ 0 := by
  exact ⟨by rfl, by decide⟩

/-- Claim C5 (amended): create stores and returns a record whose `versions`
equals the `versions` value of the accepted payload, with default `[]`;  in
particular the history is empty whenever the payload omits `versions`. -/
theorem create_stores_payload_versions
    (tok : String) (raw : RawPayload) (req : Requirement) (store : Store)
    (hval : validate_requirement raw = .ok req) :
    create_endpoint tok raw store =
      (.ok (create_requirement tok req store).1, (create_requirement tok req store).2) ∧
    (create_requirement tok req store).1.versions = raw.versions.getD [] ∧
    ((create_requirement tok req store).2).lookup tok =
      some (create_requirement tok req store).1 ∧
    (raw.versions = none → (create_requirement tok req store).1.versions = []) := by
  have hfacts := validate_requirement_ok_facts raw req hval
  have hv : req.versions = raw.versions.getD [] := hfacts.2.2.2.2.2.2.2.2.1
  refine ⟨by simp [create_endpoint, hval], ?_, ?_, ?_⟩
  · simp [create_requirement, hv]
  · exact Store.lookup_insert_self store tok _
  · intro hn
    simp [create_requirement, hv, hn]

/-- Witness for C5 (amended) at a concrete input: creating from a payload
that omits `versions` stores an empty history. -/
theorem create_stores_payload_versions_witness :
    rawLogin.versions = none ∧
    (create_requirement "REQ-2" reqLogin Store.empty).1.versions = [] := by
  have h := create_stores_payload_versions "REQ-2" rawLogin reqLogin Store.empty
    (by rfl)
  exact ⟨rfl, h.2.2.2 rfl⟩

/-- Claim C7: validation rejects any payload with a missing required field,
an empty description, or an out-of-vocabulary value in any enum field —
type, source, priority (such as "Critical"), status, layer, or a link's
type — with a `ValidationError` and no store mutation; every accepted
record has a non-empty description. -/
theorem validation_rejects_bad_payloads (raw : RawPayload) :
    ((raw.type = none ∨ raw.description = none ∨ raw.source = none ∨
      raw.priority = none ∨ raw.status = none ∨ raw.description = some "" ∨
      (∃ s, raw.type = some s ∧ RequirementType.ofString s = none) ∨
      (∃ s, raw.source = some s ∧ RequirementSource.ofString s = none) ∨
      (∃ s, raw.priority = some s ∧ PriorityLevel.ofString s = none) ∨
      (∃ s, raw.status = some s ∧ RequirementStatus.ofString s = none) ∨
      (∃ s, raw.layer = some s ∧ RequirementLayer.ofString s = none) ∨
      (∃ l r s, raw.links = some l ∧ r ∈ l ∧ r.type = some s ∧
        LinkType.ofString s = none)) →
      ((errorOf (validate_requirement raw)).map ApiError.isValidation = some true ∧
       (∀ tok store, (create_endpoint tok raw store).2 = store ∧
         (errorOf (create_endpoint tok raw store).1).map ApiError.isValidation =
           some true) ∧
       (∀ now d store, (update_endpoint now d raw store).2 = store ∧
         (errorOf (update_endpoint now d raw store).1).map ApiError.isValidation =
           some true))) ∧
    (∀ req, validate_requirement raw = .ok req → 1 ≤ req.description.length) := by
  constructor
  · intro hbad
    cases hval : validate_requirement raw with
    | ok req =>
        exfalso
        have hfacts := validate_requirement_ok_facts raw req hval
        have henum := validate_requirement_ok_enum_facts raw req hval
        rcases hbad with h | h | h | h | h | h | ⟨s, hs, hp⟩ | ⟨s, hs, hp⟩ |
          ⟨s, hs, hp⟩ | ⟨s, hs, hp⟩ | ⟨s, hs, hp⟩ | ⟨l, r, s, hl, hr, hs, hp⟩
        · exact hfacts.1 h
        · exact hfacts.2.1 h
        · exact hfacts.2.2.1 h
        · exact hfacts.2.2.2.1 h
        · exact hfacts.2.2.2.2.1 h
        · exact hfacts.2.2.2.2.2.1 h
        · exact henum.1 s hs hp
        · exact henum.2.1 s hs hp
        · exact hfacts.2.2.2.2.2.2.1 s hs hp
        · exact henum.2.2.1 s hs hp
        · exact henum.2.2.2.1 s hs hp
        · exact (henum.2.2.2.2 l hl r hr).2 s hs hp
    | error e =>
        have hv := validate_requirement_error raw e hval
        refine ⟨by simp [hval, errorOf, hv], ?_, ?_⟩
        · intro tok store
          constructor <;> simp [create_endpoint, hval, errorOf, hv]
        · intro now d store
          constructor <;> simp [update_endpoint, hval, errorOf, hv]
  · intro req hok
    exact (validate_requirement_ok_facts raw req hok).2.2.2.2.2.2.2.1

/-- Witness for C7 at concrete inputs: priority "Critical" and source
"Telepathy" are both rejected as a `ValidationError` and the store stays
empty. -/
theorem validation_rejects_bad_payloads_witness :
    (errorOf (validate_requirement rawCritical)).map ApiError.isValidation =
      some true ∧
    (create_endpoint "REQ-X" rawCritical Store.empty).2 = Store.empty ∧
    (errorOf (create_endpoint "REQ-X" rawCritical Store.empty).1).map
      ApiError.isValidation = some true ∧
    (errorOf (validate_requirement rawBogusSource)).map ApiError.isValidation =
      some true := by
  have h := (validation_rejects_bad_payloads rawCritical).1
    (Or.inr (Or.inr (Or.inr (Or.inr (Or.inr (Or.inr (Or.inr (Or.inr
      (Or.inl ⟨"Critical", rfl, rfl⟩)))))))))
  have h2 := (validation_rejects_bad_payloads rawBogusSource).1
    (Or.inr (Or.inr (Or.inr (Or.inr (Or.inr (Or.inr (Or.inr
      (Or.inl ⟨"Telepathy", rfl, rfl⟩))))))))
  exact ⟨h.1, (h.2.1 "REQ-X" Store.empty).1, (h.2.1 "REQ-X" Store.empty).2, h2.1⟩

theorem applyCreates_lookup_preserved (l : List (String × Requirement))
    (store : Store) (k : String) (hk : ∀ p ∈ l, p.1 ≠ k) :
    (applyCreates l store).lookup k = store.lookup k := by
  induction l generalizing store with
  | nil => rfl
  | cons p rest ih =>
      obtain ⟨tok, req⟩ := p
      have htok : tok ≠ k := hk (tok, req) (by simp)
      simp only [applyCreates]
      rw [ih _ (fun q hq => hk q (List.mem_cons_of_mem _ hq))]
      simp only [create_requirement]
      exact Store.lookup_insert_ne store tok k _ (Ne.symm htok)

/-- Counterexample to C4 as stated: the identifier drawn by create is a
truncated random token, not the counter of the Identity Generator; when two
creates draw the same token the second silently overwrites the first, so
two creates leave one record (cardinality 1, not 2). -/
theorem create_collision_counterexample :
    (applyCreates [("REQ-7C0FFEE1", reqA), ("REQ-7C0FFEE1", reqB)]
        Store.empty).length = 1 ∧
    (1 : Nat) ≠ 2 ∧
    ((applyCreates [("REQ-7C0FFEE1", reqA), ("REQ-7C0FFEE1", reqB)]
        Store.empty).lookup "REQ-7C0FFEE1").map (fun r => r.description) =
      some "B" := by
  exact ⟨by rfl, by decide, by rfl⟩

/-- Claim C4 (amended): when the drawn identifier tokens of a sequence of N
creates are pairwise distinct and unused (as the counter-based generator,
but not the truncated-uuid draw, guarantees), the N created records get
pairwise distinct display ids, none overwrites an existing record, and the
store grows by exactly N. -/
theorem creates_with_distinct_tokens_unique
    (l : List (String × Requirement)) (store : Store)
    (hnodup : (l.map Prod.fst).Nodup)
    (hfresh : ∀ p ∈ l, store.lookup p.1 = none) :
    (applyCreates l store).length = store.length + l.length ∧
    ∀ p ∈ l, ((applyCreates l store).lookup p.1).isSome = true := by
  induction l generalizing store with
  | nil => simp [applyCreates]
  | cons p rest ih =>
      obtain ⟨tok, req⟩ := p
      simp only [List.map_cons, List.nodup_cons] at hnodup
      have hf0 : store.lookup tok = none := hfresh (tok, req) (by simp)
      have hfresh' : ∀ q ∈ rest,
          ((create_requirement tok req store).2).lookup q.1 = none := by
        intro q hq
        have hne : q.1 ≠ tok := by
          intro hh
          apply hnodup.1
          rw [← hh]
          exact List.mem_map_of_mem _ hq
        simp only [create_requirement]
        rw [Store.lookup_insert_ne store tok q.1 _ hne]
        exact hfresh q (List.mem_cons_of_mem _ hq)
      obtain ⟨hlen, hmem⟩ := ih ((create_requirement tok req store).2) hnodup.2 hfresh'
      constructor
      · simp only [applyCreates]
        rw [hlen]
        have hstep : ((create_requirement tok req store).2).length = store.length + 1 := by
          simp only [create_requirement]
          exact Store.length_insert_fresh store tok _ hf0
        rw [hstep]
        simp only [List.length_cons]
        omega
      · intro q hq
        rcases List.mem_cons.mp hq with hq1 | hq2
        · subst hq1
          simp only [applyCreates]
          rw [applyCreates_lookup_preserved rest _ tok ?_]
          · simp only [create_requirement]
            rw [Store.lookup_insert_self]
            rfl
          · intro r hr hh
            apply hnodup.1
            rw [← hh]
            exact List.mem_map_of_mem _ hr
        · exact hmem q hq2

/-- Witness for C4 (amended) at a concrete input: two creates with the two
first counter-generated tokens leave two records. -/
theorem creates_with_distinct_tokens_unique_witness :
    (applyCreates [("REQ-00000001", reqA), ("REQ-00000002", reqB)]
        Store.empty).length = 2 := by
  have h := creates_with_distinct_tokens_unique
    [("REQ-00000001", reqA), ("REQ-00000002", reqB)] Store.empty
    (by decide) (fun p _ => rfl)
  simpa using h.1

/-- Claim C6: update and delete of an absent display id fail with NotFound
and leave the store unchanged; a successful delete removes exactly the
targeted record, and a second delete of the same id fails with NotFound. -/
theorem notfound_and_delete_exact (store : Store) (d : String)
    (hnodup : store.keys.Nodup) :
    (store.lookup d = none →
      (∀ now req, update_requirement now d req store = (.error .notFound, store)) ∧
      delete_requirement d store = (.error .notFound, store)) ∧
    (∀ r, store.lookup d = some r →
      delete_requirement d store =
        (.ok "Requirement deleted successfully", store.erase d) ∧
      (store.erase d).lookup d = none ∧
      (∀ k, k ≠ d → (store.erase d).lookup k = store.lookup k) ∧
      delete_requirement d (store.erase d) = (.error .notFound, store.erase d)) := by
  constructor
  · intro habs
    exact ⟨fun now req => by simp [update_requirement, habs],
      by simp [delete_requirement, habs]⟩
  · intro r hr
    have he : (store.erase d).lookup d = none := Store.lookup_erase_self store d hnodup
    exact ⟨by simp [delete_requirement, hr], he,
      fun k hk => Store.lookup_erase_ne store d k hk,
      by simp [delete_requirement, he]⟩

/-- Witness for C6 at a concrete input: updating a missing id is NotFound
with the store untouched; deleting R1 removes exactly R1, and deleting it
again is NotFound. -/
theorem notfound_and_delete_exact_witness :
    update_requirement 9 "REQ-NOPE" reqA exportExampleStore =
      (.error .notFound, exportExampleStore) ∧
    delete_requirement "R1" exportExampleStore =
      (.ok "Requirement deleted successfully", [("R2", storedR2)]) ∧
    delete_requirement "R1" [("R2", storedR2)] =
      (.error .notFound, [("R2", storedR2)]) := by
  have h0 := notfound_and_delete_exact exportExampleStore "REQ-NOPE" (by decide)
  have h := notfound_and_delete_exact exportExampleStore "R1" (by decide)
  have hdel := h.2 storedR1 (by rfl)
  have he : exportExampleStore.erase "R1" = [("R2", storedR2)] := by rfl
  refine ⟨(h0.1 (by rfl)).1 9 reqA, ?_, ?_⟩
  · have h1 := hdel.1
    rw [he] at h1
    exact h1
  · have h2 := hdel.2.2.2
    rw [he] at h2
    exact h2

/-- Claim C8: the traceability export emits the header row and then exactly
one (source, link type, target) row per link of every stored record, in
store iteration order then per-record link order, with no deduplication and
no existence check on the target; on the two-record example the edge list
is exactly the single triple ("R1", "DependsOn", "R2"). -/
theorem export_one_row_per_link (store : Store) :
    ((export_traceability store).drop 1).length =
      (store.values.map fun r => r.links.length).sum ∧
    export_traceability exportExampleStore =
      [["Source Requirement", "Link Type", "Target Requirement"],
       ["R1", "DependsOn", "R2"]] ∧
    export_traceability dangleExampleStore =
      [["Source Requirement", "Link Type", "Target Requirement"],
       ["R3", "Satisfies", "REQ-MISSING"]] := by
  refine ⟨?_, by rfl, by rfl⟩
  simp only [export_traceability, List.drop_succ_cons, List.drop_zero,
    List.length_flatMap]
  apply congrArg
  apply List.map_congr_left
  intro r _
  simp

/-- Claim C9: the update handler never reads the payload's `versions`
value: its result is invariant under changing it, and the stored
replacement's history is computed solely from the stored record's existing
versions plus the newly built snapshot. -/
theorem update_ignores_payload_versions
    (now : Nat) (d : String) (req : Requirement) (store : Store) :
    (∀ v, update_requirement now d { req with versions := v } store =
        update_requirement now d req store) ∧
    (∀ old, store.lookup d = some old →
      update_requirement now d req store =
        (.ok (replacementOf now d req old),
          store.insert d (replacementOf now d req old)) ∧
      (replacementOf now d req old).versions =
        old.versions ++ [⟨now, snapshotOf old⟩]) := by
  constructor
  · intro v
    cases h : store.lookup d with
    | none => simp [update_requirement, h]
    | some old => simp [update_requirement, h]
  · intro old hold
    exact ⟨update_requirement_found now d req store old hold, rfl⟩

/-- Witness for C9 at a concrete input: a payload carrying a forged history
produces exactly the same result as the same payload without it, and the
stored history is the old history plus the one new snapshot. -/
theorem update_ignores_payload_versions_witness :
    update_requirement 5 "REQ-1" { reqB with versions := [⟨1, snapA⟩] } storeA =
      update_requirement 5 "REQ-1" reqB storeA ∧
    (replacementOf 5 "REQ-1" reqB storedOldA).versions = [⟨5, snapA⟩] := by
  have h := update_ignores_payload_versions 5 "REQ-1" reqB storeA
  refine ⟨h.1 [⟨1, snapA⟩], ?_⟩
  have h2 := (h.2 storedOldA (by rfl)).2
  rw [h2]
  rfl

/-- Claim C10: the create handler overwrites any client-supplied
`display_id` with the server-generated token: its result is invariant under
the payload's `display_id`, the stored record's `display_id` equals the map
key it is stored under, and the returned record is the stored one. -/
theorem create_ignores_payload_display_id
    (tok : String) (req : Requirement) (store : Store) :
    (∀ x, create_requirement tok { req with display_id := x } store =
        create_requirement tok req store) ∧
    (create_requirement tok req store).1.display_id = tok ∧
    ((create_requirement tok req store).2).lookup tok =
      some (create_requirement tok req store).1 := by
  refine ⟨fun x => rfl, rfl, ?_⟩
  exact Store.lookup_insert_self store tok _

end Sententia

